import Mathlib

/-!
Verification development for the Forma room-redesign application.

The definitions below are a shallow embedding of the TypeScript sources:
  - src/ai-room-designer/App.tsx                      (session state machine)
  - src/ai-room-designer/services/geminiService.ts    (model gateway + parsing)
  - src/ai-room-designer/components/ItemSelection.tsx (selection + price totals,
    plus the alternate RoomDesignOutput component in the same file)
  - src/ai-room-designer/constants.ts                 (constants + alternate App)
  - src/unnamed/part_003                              (alternate gemini service)

Modelling conventions:
  - JavaScript strings are Lean String; character-level operations (trim,
    split, startsWith, parseFloat, regex digit extraction) are reimplemented
    over List Char so that the kernel can evaluate them.
  - JavaScript numbers are modelled as `JsNumber`, an exact (unnormalized)
    fraction of an Int numerator over a positive Nat denominator. The prices
    that occur in the program are small decimals, where double arithmetic
    and exact fraction arithmetic agree. The source's `===` on numbers is
    the cross-multiplication test `JsNumber.eqv`.
  - `null` and `undefined` both collapse to `Option.none` - the source only
    ever branches on truthiness of these values.
  - Asynchronous model calls are embedded by passing the outcome of the call
    (an `Except`) - or a function from the request to the outcome - as an
    explicit parameter. A thrown JS exception is `Except.error msg`.
  - `JSON.parse` is modelled by an executable JSON parser over an inductive
    `Json` type. The modelled domain restricts JSON numbers to integers and
    string escapes to the common ones; the program only exchanges objects of
    strings and arrays, where the model is exact.
-/

/-! ## Data model (src/unnamed/part_000 types.ts and part_001) -/

structure ItemOption where
  optionName : String
  description : String
deriving DecidableEq, Repr

structure SuggestedItem where
  name : String
  description : String
  estimatedPriceRange : String
  searchQuery : String
deriving DecidableEq, Repr

structure InitialSuggestedItem where
  name : String
  description : String
  estimatedPriceRange : String
  searchQuery : String
  options : List ItemOption
deriving DecidableEq, Repr

/-- FormInputs of the three-view flow (types.ts). `roomImage : File | null`
is modelled as an opaque optional payload. -/
structure RoomDesignFormInputs where
  roomImage : Option String
  existingObjects : String
  designPrompt : String
  designVibe : String
deriving DecidableEq, Repr

/-- FormInputs of the alternate single-page flow (src/unnamed/part_001),
which additionally has `roomDimensions`. -/
structure AltRoomDesignFormInputs where
  roomImage : Option String
  roomDimensions : String
  existingObjects : String
  designPrompt : String
  designVibe : String
deriving DecidableEq, Repr

structure GeneratedImage where
  imageBytes : String
  mimeType : String
deriving DecidableEq, Repr

structure RoomDesignOutputData where
  generatedImageUrl : String
  selectedItemsForFinalDesign : List SuggestedItem
deriving DecidableEq, Repr

inductive AppView where
  | form
  | itemSelection
  | designOutput
deriving DecidableEq, Repr

/-! ## JavaScript string primitives -/

/-- JS whitespace test restricted to the whitespace that occurs in the
program's strings. -/
def jsWhitespaceChar (c : Char) : Bool :=
  c = ' ' || c = '\t' || c = '\n' || c = '\r'

/-- `String.prototype.trim` over a char list. -/
def trimChars (cs : List Char) : List Char :=
  ((cs.dropWhile jsWhitespaceChar).reverse.dropWhile jsWhitespaceChar).reverse

/-- `String.prototype.trim`. -/
def jsTrim (s : String) : String :=
  String.mk (trimChars s.data)

/-- `s.startsWith(c)` for a single character. -/
def headIs (s : String) (c : Char) : Bool :=
  match s.data with
  | [] => false
  | d :: _ => d == c

/-- `s.endsWith(c)` for a single character. -/
def lastIs (s : String) (c : Char) : Bool :=
  match s.data.getLast? with
  | some d => d == c
  | none => false

/-- `s.split(c)` for a single-character separator, JS semantics. -/
def splitOnCharAux (c : Char) : List Char → List Char → List (List Char)
  | [], acc => [acc.reverse]
  | d :: rest, acc =>
    if d = c then acc.reverse :: splitOnCharAux c rest []
    else splitOnCharAux c rest (d :: acc)

def splitOnChar (c : Char) (cs : List Char) : List (List Char) :=
  splitOnCharAux c cs []

/-- `estimatedPriceRange.replace(/[$,]/g, '')`. -/
def stripDollarsCommas (s : String) : String :=
  String.mk (s.data.filter (fun c => !(c = '$' || c = ',')))

def digitsVal (ds : List Char) : Nat :=
  ds.foldl (fun n c => n * 10 + (c.toNat - 48)) 0

/-- An exact JavaScript number: an unnormalized fraction. Every construction
in this file keeps the denominator positive (1 or a power of 10 or a product
of such). Kept unnormalized so that the kernel can evaluate all arithmetic. -/
structure JsNumber where
  num : Int
  den : Nat
deriving DecidableEq, Repr

instance (n : Nat) : OfNat JsNumber n where
  ofNat := ⟨n, 1⟩

def JsNumber.add (a b : JsNumber) : JsNumber :=
  ⟨a.num * b.den + b.num * a.den, a.den * b.den⟩

def JsNumber.mul (a b : JsNumber) : JsNumber :=
  ⟨a.num * b.num, a.den * b.den⟩

/-- Numeric equality (`===` on JS numbers) by cross multiplication. -/
def JsNumber.eqv (a b : JsNumber) : Bool :=
  a.num * b.den == b.num * a.den

/-- Numeric less-or-equal by cross multiplication (denominators positive). -/
def JsNumber.le (a b : JsNumber) : Bool :=
  decide (a.num * (b.den : Int) ≤ b.num * (a.den : Int))

/-- `Math.min` of two numbers. -/
def jsMin (a b : JsNumber) : JsNumber :=
  if a.le b then a else b

/-- `Math.max` of two numbers. -/
def jsMax (a b : JsNumber) : JsNumber :=
  if a.le b then b else a

/-- `parseFloat` on a char list: skip leading whitespace, optional sign,
integer digits, optional fraction; NaN (no digits at all) is `none`.
Exponents do not occur in the program's price strings and are not modelled. -/
def jsParseFloatChars (cs : List Char) : Option JsNumber :=
  let cs0 := cs.dropWhile jsWhitespaceChar
  let signAndRest : JsNumber × List Char :=
    match cs0 with
    | '-' :: r => (⟨-1, 1⟩, r)
    | '+' :: r => (⟨1, 1⟩, r)
    | _ => (⟨1, 1⟩, cs0)
  let intDigits := signAndRest.2.takeWhile Char.isDigit
  let afterInt := signAndRest.2.dropWhile Char.isDigit
  let fracDigits : List Char :=
    match afterInt with
    | '.' :: r => r.takeWhile Char.isDigit
    | _ => []
  if intDigits.isEmpty && fracDigits.isEmpty then none
  else
    some (signAndRest.1.mul
      (JsNumber.add ⟨(digitsVal intDigits : Int), 1⟩
        ⟨(digitsVal fracDigits : Int), 10 ^ fracDigits.length⟩))

def jsParseFloat (s : String) : Option JsNumber :=
  jsParseFloatChars s.data

/-- `Number.prototype.toFixed(0)`: round to the nearest integer, ties toward
positive infinity (the ECMAScript "pick the larger n" rule); this is
`floor (q + 1/2)` on exact fractions. -/
def toFixed0 (q : JsNumber) : Int :=
  Int.fdiv (q.num * 2 + q.den) (q.den * 2)

/-! ## Price parsing and aggregation
(src/ai-room-designer/components/ItemSelection.tsx, calculateTotalEstimatedCost,
lines 35-58) -/

/-- The numeric tokens of one `estimatedPriceRange`:
`cleanedRange.split('-').map(p => parseFloat(p.trim()))` applied to
`estimatedPriceRange.replace(/[$,]/g, '').trim()`. -/
def priceTokens (estimatedPriceRange : String) : List (Option JsNumber) :=
  let cleanedRange := trimChars (stripDollarsCommas estimatedPriceRange).data
  (splitOnChar '-' cleanedRange).map (fun p => jsParseFloatChars (trimChars p))

/-- The (min, max) contribution of one price string to the running totals:
one numeric token contributes (v, v), two numeric tokens contribute the pair
in source order, anything else contributes nothing. -/
def priceContribution (estimatedPriceRange : String) : Option (JsNumber × JsNumber) :=
  match priceTokens estimatedPriceRange with
  | [some a] => some (a, a)
  | [some a, some b] => some (a, b)
  | _ => none

/-- The (minTotal, maxTotal) accumulated by `calculateTotalEstimatedCost` in
ItemSelection: items contribute only when their selected option is non-null
and their price string is truthy (non-empty). -/
def itemSelCostTotals (initialItems : List InitialSuggestedItem)
    (selections : String → Option ItemOption) : JsNumber × JsNumber :=
  initialItems.foldl
    (fun acc item =>
      match selections item.name with
      | none => acc
      | some _ =>
        if item.estimatedPriceRange = "" then acc
        else
          match priceContribution item.estimatedPriceRange with
          | some (a, b) => (acc.1.add a, acc.2.add b)
          | none => acc)
    (0, 0)

def renderTotals (minTotal maxTotal : JsNumber) : String :=
  if minTotal.eqv 0 && maxTotal.eqv 0 then "N/A"
  else "$" ++ toString (toFixed0 minTotal) ++ " - $" ++ toString (toFixed0 maxTotal)

/-- `calculateTotalEstimatedCost` of ItemSelection.tsx (lines 35-58). -/
def calculateTotalEstimatedCost (initialItems : List InitialSuggestedItem)
    (selections : String → Option ItemOption) : String :=
  let totals := itemSelCostTotals initialItems selections
  renderTotals totals.1 totals.2

/-- A fixed option, used to build concrete inputs where every item has a
selected option. -/
def defaultOption : ItemOption :=
  { optionName := "opt", description := "optdesc" }

def priceItem (p : String) : InitialSuggestedItem :=
  { name := "item", description := "desc", estimatedPriceRange := p,
    searchQuery := "q", options := [defaultOption] }

/-- The ItemSelection cost total of a bare list of price strings, each
attached to an item whose option is selected. -/
def costOfPrices (prices : List String) : String :=
  calculateTotalEstimatedCost (prices.map priceItem) (fun _ => some defaultOption)

/-! ## The alternate cost aggregation
(RoomDesignOutput component inside ItemSelection.tsx, lines 261-299):
`item.estimatedPriceRange.match(/\d+(\.\d{1,2})?/g)` followed by parseFloat,
Math.min / Math.max over all matches, and a hasRange flag. -/

/-- One number value from digit chars plus up to two fraction digit chars. -/
def numToken (intDigits fracDigits : List Char) : JsNumber :=
  JsNumber.add ⟨(digitsVal intDigits : Int), 1⟩
    ⟨(digitsVal fracDigits : Int), 10 ^ fracDigits.length⟩

/-- All matches of the regex `\d+(\.\d{1,2})?` in order, as numbers
(each match is a valid float literal, so the subsequent `parseFloat` and
NaN filter of the source are the identity on them). -/
def extractNumsAux : Nat → List Char → List JsNumber
  | 0, _ => []
  | _ + 1, [] => []
  | fuel + 1, c :: rest =>
    if c.isDigit then
      let ds := (c :: rest).takeWhile Char.isDigit
      let r1 := (c :: rest).dropWhile Char.isDigit
      match r1 with
      | '.' :: d1 :: tail =>
        if d1.isDigit then
          match tail with
          | d2 :: tail2 =>
            if d2.isDigit then numToken ds [d1, d2] :: extractNumsAux fuel tail2
            else numToken ds [d1] :: extractNumsAux fuel tail
          | [] => [numToken ds [d1]]
        else numToken ds [] :: extractNumsAux fuel r1
      | _ => numToken ds [] :: extractNumsAux fuel r1
    else extractNumsAux fuel rest

def extractNums (s : String) : List JsNumber :=
  extractNumsAux (s.data.length + 1) s.data

/-- The (totalMin, totalMax, hasRange) accumulated by the RoomDesignOutput
`calculateTotalEstimatedCost`: per item, min and max over all matched
numbers (or the single number when there is exactly one). -/
def outputCostTotals (selectedItems : List SuggestedItem) :
    JsNumber × JsNumber × Bool :=
  selectedItems.foldl
    (fun acc item =>
      if item.estimatedPriceRange = "" then acc
      else
        match extractNums item.estimatedPriceRange with
        | [] => acc
        | n :: rest =>
          let minPrice := rest.foldl jsMin n
          let maxPrice := rest.foldl jsMax n
          (acc.1.add minPrice, acc.2.1.add maxPrice,
            acc.2.2 || !(minPrice.eqv maxPrice)))
    (0, 0, false)

def renderOutputTotals (totalMin totalMax : JsNumber) (hasRange : Bool) : String :=
  if totalMin.eqv 0 && totalMax.eqv 0 then "N/A"
  else if hasRange && !(totalMin.eqv totalMax) then
    "$" ++ toString (toFixed0 totalMin) ++ " - $" ++ toString (toFixed0 totalMax)
  else "$" ++ toString (toFixed0 totalMin)

/-- `calculateTotalEstimatedCost` of the RoomDesignOutput component inside
ItemSelection.tsx (lines 261-299). -/
def calculateTotalEstimatedCostOutput (selectedItems : List SuggestedItem) : String :=
  let t := outputCostTotals selectedItems
  renderOutputTotals t.1 t.2.1 t.2.2

/-! ## Item selection (ItemSelection.tsx lines 19-29 and 61-84) -/

/-- The default selection map built by the useEffect of ItemSelection:
for each item, the first option when there is one, else null. A JS object is
keyed by item name, so the last item with a given name wins; absent keys and
null both collapse to `none`. -/
def initialSelections (initialItems : List InitialSuggestedItem)
    (name : String) : Option ItemOption :=
  match (initialItems.filter (fun item => item.name == name)).getLast? with
  | some item => item.options.head?
  | none => none

/-- One entry of the submitted list in handleSubmit: the selected option's
description when a selection exists, else the base description; price range
and search query always come from the base item. -/
def submitEntry (selections : String → Option ItemOption)
    (item : InitialSuggestedItem) : SuggestedItem :=
  match selections item.name with
  | some selectedOption =>
    { name := item.name, description := selectedOption.description,
      estimatedPriceRange := item.estimatedPriceRange,
      searchQuery := item.searchQuery }
  | none =>
    { name := item.name, description := item.description,
      estimatedPriceRange := item.estimatedPriceRange,
      searchQuery := item.searchQuery }

/-- `finalSelectedItems` of handleSubmit (ItemSelection.tsx lines 61-84):
a map over all suggested items. -/
def finalSelectedItems (initialItems : List InitialSuggestedItem)
    (selections : String → Option ItemOption) : List SuggestedItem :=
  initialItems.map (submitEntry selections)

/-! ## JSON values and JSON.parse
An executable model of the JSON values exchanged with the model service.
Numbers are restricted to integers and string escapes to the common
single-character ones; inputs outside this domain simply fail to parse. -/

inductive Json where
  | null : Json
  | bool (b : Bool) : Json
  | num (n : Int) : Json
  | str (s : String) : Json
  | arr (elems : List Json) : Json
  | obj (fields : List (String × Json)) : Json
deriving Repr

def stripPrefixChars : List Char → List Char → Option (List Char)
  | [], cs => some cs
  | _ :: _, [] => none
  | p :: ps, c :: cs => if c = p then stripPrefixChars ps cs else none

def skipJsonWs (cs : List Char) : List Char :=
  cs.dropWhile jsWhitespaceChar

/-- Body of a JSON string literal after the opening quote: returns the
decoded characters and the input after the closing quote. -/
def parseJsonStringAux : Nat → List Char → Option (List Char × List Char)
  | 0, _ => none
  | _ + 1, [] => none
  | fuel + 1, c :: rest =>
    if c = '"' then some ([], rest)
    else if c = '\\' then
      match rest with
      | [] => none
      | e :: rest2 =>
        let esc : Option Char :=
          if e = '"' then some '"'
          else if e = '\\' then some '\\'
          else if e = '/' then some '/'
          else if e = 'n' then some '\n'
          else if e = 't' then some '\t'
          else if e = 'r' then some '\r'
          else none
        match esc with
        | none => none
        | some ec =>
          match parseJsonStringAux fuel rest2 with
          | some (s, r) => some (ec :: s, r)
          | none => none
    else
      match parseJsonStringAux fuel rest with
      | some (s, r) => some (c :: s, r)
      | none => none

def parseJsonNat (cs : List Char) : Option (Nat × List Char) :=
  let ds := cs.takeWhile Char.isDigit
  if ds.isEmpty then none
  else some (digitsVal ds, cs.dropWhile Char.isDigit)

mutual

def parseJsonValue : Nat → List Char → Option (Json × List Char)
  | 0, _ => none
  | fuel + 1, cs =>
    match skipJsonWs cs with
    | [] => none
    | '"' :: rest =>
      match parseJsonStringAux (rest.length + 1) rest with
      | some (sChars, r) => some (Json.str (String.mk sChars), r)
      | none => none
    | '[' :: rest =>
      match skipJsonWs rest with
      | ']' :: r => some (Json.arr [], r)
      | _ =>
        match parseJsonElems fuel rest with
        | some (elems, r) => some (Json.arr elems, r)
        | none => none
    | '{' :: rest =>
      match skipJsonWs rest with
      | '}' :: r => some (Json.obj [], r)
      | _ =>
        match parseJsonFields fuel rest with
        | some (fields, r) => some (Json.obj fields, r)
        | none => none
    | 't' :: rest =>
      match stripPrefixChars ['r', 'u', 'e'] rest with
      | some r => some (Json.bool true, r)
      | none => none
    | 'f' :: rest =>
      match stripPrefixChars ['a', 'l', 's', 'e'] rest with
      | some r => some (Json.bool false, r)
      | none => none
    | 'n' :: rest =>
      match stripPrefixChars ['u', 'l', 'l'] rest with
      | some r => some (Json.null, r)
      | none => none
    | '-' :: rest =>
      match parseJsonNat rest with
      | some (n, r) => some (Json.num (-(n : Int)), r)
      | none => none
    | c :: rest =>
      if c.isDigit then
        match parseJsonNat (c :: rest) with
        | some (n, r) => some (Json.num (n : Int), r)
        | none => none
      else none

def parseJsonElems : Nat → List Char → Option (List Json × List Char)
  | 0, _ => none
  | fuel + 1, cs =>
    match parseJsonValue fuel cs with
    | none => none
    | some (j, r) =>
      match skipJsonWs r with
      | ',' :: r2 =>
        match parseJsonElems fuel r2 with
        | some (js, r3) => some (j :: js, r3)
        | none => none
      | ']' :: r2 => some ([j], r2)
      | _ => none

def parseJsonFields : Nat → List Char → Option (List (String × Json) × List Char)
  | 0, _ => none
  | fuel + 1, cs =>
    match skipJsonWs cs with
    | '"' :: rest =>
      match parseJsonStringAux (rest.length + 1) rest with
      | none => none
      | some (keyChars, r) =>
        match skipJsonWs r with
        | ':' :: r2 =>
          match parseJsonValue fuel r2 with
          | none => none
          | some (v, r3) =>
            match skipJsonWs r3 with
            | ',' :: r4 =>
              match parseJsonFields fuel r4 with
              | some (fs, r5) => some ((String.mk keyChars, v) :: fs, r5)
              | none => none
            | '}' :: r4 => some ([(String.mk keyChars, v)], r4)
            | _ => none
        | _ => none
    | _ => none

end

/-- `JSON.parse`: the whole input must be one JSON value up to whitespace. -/
def Json.parse (s : String) : Option Json :=
  match parseJsonValue (s.data.length + 1) s.data with
  | some (j, r) => if (skipJsonWs r).isEmpty then some j else none
  | none => none

/-- Whether a parsed suggestion element carries all fields that the spec
calls required (name, description, estimatedPriceRange, searchQuery,
options). The source never performs this check. -/
def hasRequiredSuggestionFields : Json → Bool
  | Json.obj fields =>
    ["name", "description", "estimatedPriceRange", "searchQuery", "options"].all
      (fun key => fields.any (fun f => f.1 == key))
  | _ => false

/-! ## Model gateway (geminiService.ts) -/

/-- The GoogleGenAI client: only its construction-time apiKey matters here. -/
structure GoogleGenAI where
  apiKey : String
deriving DecidableEq, Repr

/-- `initializeGenAI` (geminiService.ts lines 23-30): runs right before each
API call; throws when `process.env.API_KEY` is falsy (unset or empty). The
parameter is the value of the environment variable at the moment of the call. -/
def initializeGenAI (apiKeyEnv : Option String) : Except String GoogleGenAI :=
  if apiKeyEnv.getD "" = "" then
    Except.error "API_KEY environment variable is not set. Please provide a valid API key."
  else Except.ok { apiKey := apiKeyEnv.getD "" }

/-- The parse stage of `detectAndSuggestItems` (geminiService.ts lines
147-161): trim the response text, require it to start with a bracket and end
with a bracket, then JSON.parse; the two failure messages are the ones the
surrounding try/catch produces (a non-SyntaxError throw is rewrapped as a
Gemini API error, a JSON.parse SyntaxError becomes the parse message). The
parsed value is returned as-is: no element or field is validated. -/
def detectAndSuggestItemsParse (text : String) : Except String Json :=
  let jsonStr := jsTrim text
  if !(headIs jsonStr '[') || !(lastIs jsonStr ']') then
    Except.error "Gemini API error: Model did not return a valid JSON array."
  else
    match Json.parse jsonStr with
    | none => Except.error "Failed to parse model response as JSON. Please try again."
    | some suggestions => Except.ok suggestions

/-- One content part of a model response. -/
inductive RespPart where
  | text (s : String) : RespPart
  | inlineImage (mimeType : String) (data : String) : RespPart
deriving DecidableEq, Repr

def isInlineImagePart : RespPart → Bool
  | RespPart.inlineImage _ _ => true
  | RespPart.text _ => false

/-- `response.candidates?.[0]?.content?.parts?.[0]?.inlineData` of
`generateRoomDesign` (geminiService.ts lines 228-237): only the first part of
the first candidate is inspected. -/
def firstPartInlineData (candidates : List (List RespPart)) :
    Option (String × String) :=
  match (candidates.head?.getD []).head? with
  | some (RespPart.inlineImage mimeType data) => some (mimeType, data)
  | _ => none

/-- The image-extraction stage of `generateRoomDesign` (geminiService.ts
lines 228-237), including the catch that rewraps the thrown message. -/
def generateRoomDesignExtract (candidates : List (List RespPart)) :
    Except String GeneratedImage :=
  match firstPartInlineData candidates with
  | some (mimeType, data) => Except.ok { imageBytes := data, mimeType := mimeType }
  | none => Except.error "Gemini API error: No image data found in the model response."

/-- `detectAndSuggestItems` with the credential check in front: the client is
initialized from the call-time environment before anything else, so a missing
key fails with the configuration error regardless of the network response. -/
def detectAndSuggestItemsRun (apiKeyEnvAtCall : Option String)
    (responseText : String) : Except String Json :=
  match initializeGenAI apiKeyEnvAtCall with
  | Except.error e => Except.error e
  | Except.ok _ => detectAndSuggestItemsParse responseText

/-- `generateRoomDesign` with the credential check in front. -/
def generateRoomDesignRun (apiKeyEnvAtCall : Option String)
    (candidates : List (List RespPart)) : Except String GeneratedImage :=
  match initializeGenAI apiKeyEnvAtCall with
  | Except.error e => Except.error e
  | Except.ok _ => generateRoomDesignExtract candidates

/-! ## Alternate service (src/unnamed/part_003) and constants.ts -/

/-- `export const API_KEY = process.env.API_KEY || ''` (constants.ts):
evaluated once, when the module is loaded. -/
def constantsApiKey (apiKeyEnvAtModuleLoad : Option String) : String :=
  apiKeyEnvAtModuleLoad.getD ""

/-- `const getGeminiClient = () => new GoogleGenAI({ apiKey: API_KEY })`
(src/unnamed/part_003 lines 1-21): no check of any kind. -/
def getGeminiClient (apiKey : String) : GoogleGenAI :=
  { apiKey := apiKey }

/-- A single-quote string, used in alt-text construction. -/
def singleQuote : String :=
  String.mk [Char.ofNat 39]

structure PanoramaImage where
  id : String
  base64Data : String
  alt : String
deriving DecidableEq, Repr

/-- The image-collection loop of part_003 generateRoomDesign (lines 76-89):
every part with inlineData becomes a GeneratedImage, in response order.
`now` stands for Date.now(). -/
def collectInlineImages (now : Nat) (designPrompt : String)
    (parts : List RespPart) : List PanoramaImage :=
  parts.filterMap
    (fun p =>
      match p with
      | RespPart.inlineImage _ data =>
        some { id := "panorama-" ++ toString now, base64Data := data,
               alt := "AI-generated panoramic room design for " ++ singleQuote ++
                 designPrompt ++ singleQuote }
      | RespPart.text _ => none)

/-- The zero-image check of part_003 (lines 87-89): an empty collection
throws, otherwise all collected images are returned. -/
def generateImagesStep (now : Nat) (designPrompt : String)
    (parts : List RespPart) : Except String (List PanoramaImage) :=
  let generatedImages := collectInlineImages now designPrompt parts
  if generatedImages.isEmpty then
    Except.error "Failed to generate any room design images."
  else Except.ok generatedImages

/-- `images.length > 0 ? images[0] : null` of the alternate RoomDesignOutput:
the displayed panorama is the first returned image. -/
def panoramaImageOf (images : List PanoramaImage) : Option PanoramaImage :=
  images.head?

/-- The part_003 pipeline with its credential handling: the client is built
from the module-load-time constant, the call-time environment is never read,
and no missing-credential error exists. -/
def part3GenerateImagesRun (apiKeyEnvAtModuleLoad apiKeyEnvAtCall : Option String)
    (now : Nat) (designPrompt : String) (parts : List RespPart) :
    Except String (List PanoramaImage) :=
  let _ai := getGeminiClient (constantsApiKey apiKeyEnvAtModuleLoad)
  generateImagesStep now designPrompt parts

/-! ## Session state machine (App.tsx) -/

structure AppState where
  currentView : AppView
  formInputs : Option RoomDesignFormInputs
  initialSuggestedItems : Option (List InitialSuggestedItem)
  roomDesignOutput : Option RoomDesignOutputData
  isLoading : Bool
  error : Option String
  selectedItemsFromSelection : List SuggestedItem
deriving DecidableEq, Repr

/-- The argument tuple of a `generateRoomDesign` call. -/
structure GenerateRequest where
  roomImage : Option String
  existingObjects : String
  designPrompt : String
  designVibe : String
  selectedItems : List SuggestedItem
deriving DecidableEq, Repr

/-- The request `handleItemSelectionSubmit` issues: the stored form inputs
plus the just-submitted selection. -/
def itemSelectionRequest (formInputs : RoomDesignFormInputs)
    (selectedItems : List SuggestedItem) : GenerateRequest :=
  { roomImage := formInputs.roomImage, existingObjects := formInputs.existingObjects,
    designPrompt := formInputs.designPrompt, designVibe := formInputs.designVibe,
    selectedItems := selectedItems }

/-- The request `handleRedesign` issues (App.tsx lines 80-115): the stored
form inputs with `designPrompt` REPLACED by the new refinement text, plus the
previously selected items passed through unchanged. -/
def redesignRequest (formInputs : RoomDesignFormInputs) (newPrompt : String)
    (currentSelectedItems : List SuggestedItem) : GenerateRequest :=
  let updatedFormInputs : RoomDesignFormInputs :=
    { formInputs with designPrompt := newPrompt }
  { roomImage := updatedFormInputs.roomImage,
    existingObjects := updatedFormInputs.existingObjects,
    designPrompt := updatedFormInputs.designPrompt,
    designVibe := updatedFormInputs.designVibe,
    selectedItems := currentSelectedItems }

def dataUrlOf (result : GeneratedImage) : String :=
  "data:" ++ result.mimeType ++ ";base64," ++ result.imageBytes

/-- `handleItemSelectionSubmit` (App.tsx lines 48-77). `gen` is the outcome
of the awaited `generateRoomDesign` call as a function of the issued request.
Note that `setSelectedItemsFromSelection(selectedItems)` runs BEFORE the try
block, so the stored selection is overwritten on the error path too;
isLoading is toggled on and then off in the finally block. -/
def handleItemSelectionSubmit (s : AppState) (selectedItems : List SuggestedItem)
    (gen : GenerateRequest → Except String GeneratedImage) : AppState :=
  match s.formInputs with
  | none =>
    { s with
      error := some "Form inputs are missing. Please go back and resubmit the form.",
      currentView := AppView.form }
  | some formInputs =>
    match gen (itemSelectionRequest formInputs selectedItems) with
    | Except.ok result =>
      { s with
        error := none,
        selectedItemsFromSelection := selectedItems,
        roomDesignOutput := some
          { generatedImageUrl := dataUrlOf result,
            selectedItemsForFinalDesign := selectedItems },
        currentView := AppView.designOutput,
        isLoading := false }
    | Except.error msg =>
      { s with
        error := some (if msg = ""
          then "Failed to generate final room design. Please try again." else msg),
        selectedItemsFromSelection := selectedItems,
        isLoading := false }

/-- `handleRedesign` (App.tsx lines 80-115). `setFormInputs(updatedFormInputs)`
runs BEFORE the try block, so the stored prompt is replaced on the error path
too; the view stays on DESIGN_OUTPUT and the prior image is kept on failure. -/
def handleRedesign (s : AppState) (newPrompt : String)
    (currentSelectedItems : List SuggestedItem)
    (gen : GenerateRequest → Except String GeneratedImage) : AppState :=
  match s.formInputs with
  | none =>
    { s with
      error := some "Form inputs are missing. Please go back and resubmit the form.",
      currentView := AppView.form }
  | some formInputs =>
    let updatedFormInputs : RoomDesignFormInputs :=
      { formInputs with designPrompt := newPrompt }
    match gen (redesignRequest formInputs newPrompt currentSelectedItems) with
    | Except.ok result =>
      { s with
        error := none,
        formInputs := some updatedFormInputs,
        roomDesignOutput := some
          { generatedImageUrl := dataUrlOf result,
            selectedItemsForFinalDesign := currentSelectedItems },
        isLoading := false }
    | Except.error msg =>
      { s with
        error := some (if msg = ""
          then "Failed to redesign room. Please try again." else msg),
        formInputs := some updatedFormInputs,
        isLoading := false }

/-! ## Alternate App redesign (second document in constants.ts, lines 45-80) -/

/-- The combined prompt the alternate single-page App sends on a redesign:
the prior design prompt, a ". " separator, the refinement text, and (when
items are selected) an explicit incorporation sentence; the whole string is
trimmed. The selected items are passed to the service unchanged alongside. -/
def altRedesignFinalPrompt (formInputs : AltRoomDesignFormInputs)
    (newPrompt : String) (selectedItems : List SuggestedItem) : String :=
  let updatedDesignPrompt := formInputs.designPrompt ++ ". " ++ newPrompt
  let itemsToIncorporate :=
    if selectedItems.length > 0 then
      "Ensure the following items are incorporated into the design: " ++
        String.intercalate ", " (selectedItems.map (fun item => item.name)) ++ "."
    else ""
  jsTrim (updatedDesignPrompt ++ " " ++ itemsToIncorporate)

/-! ## Claim theorems -/

/-- Claim C5 (confirmed): the cost aggregation is total by construction (it
is a Lean function into String); a price whose tokens are a single parsed
number contributes (v, v); two parsed numbers contribute (first, second);
any token that fails numeric parsing drops the whole item's contribution
without affecting the rest; and the concrete examples of the spec hold:
["$100 - $200", "$50"] totals "$150 - $250", ["$abc"] alone renders "N/A",
and the empty list renders "N/A". -/
theorem c5_aggregation :
    (∀ (s : String) (a : JsNumber),
      priceTokens s = [some a] → priceContribution s = some (a, a)) ∧
    (∀ (s : String) (a b : JsNumber),
      priceTokens s = [some a, some b] → priceContribution s = some (a, b)) ∧
    (∀ s : String, none ∈ priceTokens s → priceContribution s = none) ∧
    costOfPrices ["$100 - $200", "$50"] = "$150 - $250" ∧
    costOfPrices ["$abc"] = "N/A" ∧
    costOfPrices [] = "N/A" := by
  refine ⟨?_, ?_, ?_, by decide, by decide, by decide⟩
  · intro s a h
    unfold priceContribution
    rw [h]
  · intro s a b h
    unfold priceContribution
    rw [h]
  · intro s hmem
    unfold priceContribution
    rcases hts : priceTokens s with _ | ⟨t1, rest⟩
    · rfl
    · rcases rest with _ | ⟨t2, rest2⟩
      · rcases t1 with _ | a
        · rfl
        · rw [hts] at hmem; simp at hmem
      · rcases rest2 with _ | ⟨t3, rest3⟩
        · rcases t1 with _ | a
          · rfl
          · rcases t2 with _ | b
            · rfl
            · rw [hts] at hmem; simp at hmem
        · rcases t1 with _ | a <;> rcases t2 with _ | b <;> rfl

/-- Claim C5 witness: the aggregation facts applied at the spec's concrete
inputs. -/
theorem c5_aggregation_witness :
    priceTokens "$50" = [some 50] ∧
    priceContribution "$50" = some (50, 50) ∧
    priceTokens "$100 - $200" = [some 100, some 200] ∧
    priceContribution "$100 - $200" = some (100, 200) ∧
    none ∈ priceTokens "$abc" ∧
    priceContribution "$abc" = none :=
  ⟨by decide, c5_aggregation.1 "$50" 50 (by decide), by decide,
    c5_aggregation.2.1 "$100 - $200" 100 200 (by decide), by decide,
    c5_aggregation.2.2.1 "$abc" (by decide)⟩

/-- Claim C6 (confirmed): two parsed tokens are assigned min := first token,
max := second token in source order without sorting, so "$200 - $100"
contributes min = 200 and max = 100 to the running totals. -/
theorem c6_reversed_range :
    (∀ (s : String) (a b : JsNumber),
      priceTokens s = [some a, some b] → priceContribution s = some (a, b)) ∧
    priceTokens "$200 - $100" = [some 200, some 100] ∧
    priceContribution "$200 - $100" = some (200, 100) ∧
    itemSelCostTotals [priceItem "$200 - $100"] (fun _ => some defaultOption)
      = (200, 100) := by
  refine ⟨?_, by decide, by decide, by decide⟩
  intro s a b h
  unfold priceContribution
  rw [h]

/-- Claim C6 witness: the two-token rule applied at the reversed range. -/
theorem c6_reversed_range_witness :
    priceTokens "$200 - $100" = [some 200, some 100] ∧
    priceContribution "$200 - $100" = some (200, 100) :=
  ⟨by decide, c6_reversed_range.1 "$200 - $100" 200 100 (by decide)⟩

theorem submitEntry_name (selections : String → Option ItemOption)
    (item : InitialSuggestedItem) :
    (submitEntry selections item).name = item.name := by
  cases h : selections item.name <;> simp [submitEntry, h]

/-- Claim C9 (confirmed): handleSubmit maps over ALL suggested items, so the
submitted list has the same length and the same names in the same order as
the suggestion list - the user can pick style options but can never exclude
an item at this stage. -/
theorem c9_no_exclusion :
    ∀ (initialItems : List InitialSuggestedItem)
      (selections : String → Option ItemOption),
      (finalSelectedItems initialItems selections).map (fun x => x.name)
        = initialItems.map (fun item => item.name) ∧
      (finalSelectedItems initialItems selections).length
        = initialItems.length := by
  intro items sel
  refine ⟨?_, by simp [finalSelectedItems]⟩
  induction items with
  | nil => rfl
  | cons hd tl ih =>
    simp only [finalSelectedItems, List.map_cons] at ih ⊢
    rw [submitEntry_name, ih]

/-- A selected item with a successfully parsing price of zero, for C10. -/
def zeroPriceOutItem : SuggestedItem :=
  { name := "x", description := "d", estimatedPriceRange := "$0",
    searchQuery := "q" }

/-- Claim C10 (confirmed): both aggregators render "N/A" exactly when the
accumulated min and max totals are numerically zero, which also happens when
every price parses but sums to zero; so "N/A" does not distinguish "nothing
parseable" from "total of exactly zero". -/
theorem c10_zero_is_na :
    (∀ (initialItems : List InitialSuggestedItem)
       (selections : String → Option ItemOption),
      (itemSelCostTotals initialItems selections).1.eqv 0 = true →
      (itemSelCostTotals initialItems selections).2.eqv 0 = true →
      calculateTotalEstimatedCost initialItems selections = "N/A") ∧
    (∀ selectedItems : List SuggestedItem,
      (outputCostTotals selectedItems).1.eqv 0 = true →
      (outputCostTotals selectedItems).2.1.eqv 0 = true →
      calculateTotalEstimatedCostOutput selectedItems = "N/A") ∧
    priceContribution "$0" = some (0, 0) ∧
    costOfPrices ["$0"] = "N/A" ∧
    costOfPrices ["$abc"] = "N/A" ∧
    calculateTotalEstimatedCostOutput [zeroPriceOutItem] = "N/A" := by
  refine ⟨?_, ?_, by decide, by decide, by decide, by decide⟩
  · intro items sel h1 h2
    simp [calculateTotalEstimatedCost, renderTotals, h1, h2]
  · intro sel h1 h2
    simp [calculateTotalEstimatedCostOutput, renderOutputTotals, h1, h2]

/-- Claim C10 witness: a price of "$0" parses successfully, yields zero
totals, and both aggregators render "N/A" on it. -/
theorem c10_zero_is_na_witness :
    (itemSelCostTotals (["$0"].map priceItem) (fun _ => some defaultOption)).1.eqv 0 = true ∧
    (itemSelCostTotals (["$0"].map priceItem) (fun _ => some defaultOption)).2.eqv 0 = true ∧
    calculateTotalEstimatedCost (["$0"].map priceItem) (fun _ => some defaultOption) = "N/A" ∧
    (outputCostTotals [zeroPriceOutItem]).1.eqv 0 = true ∧
    (outputCostTotals [zeroPriceOutItem]).2.1.eqv 0 = true ∧
    calculateTotalEstimatedCostOutput [zeroPriceOutItem] = "N/A" :=
  ⟨by decide, by decide,
    c10_zero_is_na.1 (["$0"].map priceItem) (fun _ => some defaultOption)
      (by decide) (by decide),
    by decide, by decide,
    c10_zero_is_na.2.1 [zeroPriceOutItem] (by decide) (by decide)⟩

theorem filter_name_singleton (items : List InitialSuggestedItem)
    (it : InitialSuggestedItem) (hnd : (items.map (fun i => i.name)).Nodup)
    (hmem : it ∈ items) :
    items.filter (fun i => i.name == it.name) = [it] := by
  induction items with
  | nil => cases hmem
  | cons hd tl ih =>
    rw [List.map_cons, List.nodup_cons] at hnd
    rcases List.mem_cons.mp hmem with h | h
    · subst h
      have htl : tl.filter (fun i => i.name == it.name) = [] := by
        rw [List.filter_eq_nil_iff]
        intro a ha hba
        exact hnd.1 ((beq_iff_eq.mp hba) ▸ List.mem_map.mpr ⟨a, ha, rfl⟩)
      simp [List.filter_cons, htl]
    · have hne : (hd.name == it.name) = false := by
        rw [beq_eq_false_iff_ne]
        intro he
        exact hnd.1 (he ▸ List.mem_map.mpr ⟨it, h, rfl⟩)
      simp [List.filter_cons, hne, ih hnd.2 h]

/-- Claim C8 (confirmed): an item with no options gets a null default
selection and is submitted with its base description (absence of options is
not an error); an item with options gets its first option as the default
selection and is submitted with the selected option's description. Item
names are assumed unique within a batch, as the spec requires. -/
theorem c8_option_fallback :
    ∀ (initialItems : List InitialSuggestedItem) (item : InitialSuggestedItem),
      (initialItems.map (fun i => i.name)).Nodup →
      item ∈ initialItems →
      initialSelections initialItems item.name = item.options.head? ∧
      (item.options = [] →
        initialSelections initialItems item.name = none ∧
        (submitEntry (initialSelections initialItems) item).description
          = item.description) ∧
      (∀ (firstOption : ItemOption) (moreOptions : List ItemOption),
        item.options = firstOption :: moreOptions →
        initialSelections initialItems item.name = some firstOption ∧
        (submitEntry (initialSelections initialItems) item).description
          = firstOption.description) := by
  intro items it hnd hmem
  have hsel : initialSelections items it.name = it.options.head? := by
    unfold initialSelections
    rw [filter_name_singleton items it hnd hmem]
    rfl
  refine ⟨hsel, ?_, ?_⟩
  · intro hopts
    have h0 : initialSelections items it.name = none := by rw [hsel, hopts]; rfl
    exact ⟨h0, by simp [submitEntry, h0]⟩
  · intro firstOption moreOptions hopts
    have h0 : initialSelections items it.name = some firstOption := by
      rw [hsel, hopts]; rfl
    exact ⟨h0, by simp [submitEntry, h0]⟩

/-- A concrete item without options, for the C8 witness. -/
def c8Lamp : InitialSuggestedItem :=
  { name := "Lamp", description := "base lamp", estimatedPriceRange := "$10",
    searchQuery := "lamp", options := [] }

/-- A concrete item with one option, for the C8 witness. -/
def c8Armchair : InitialSuggestedItem :=
  { name := "Armchair", description := "base armchair",
    estimatedPriceRange := "$100", searchQuery := "armchair",
    options := [{ optionName := "Tan Leather", description := "tan leather armchair" }] }

/-- Claim C8 witness: the option fallback applied at a two-item batch. -/
theorem c8_option_fallback_witness :
    ([c8Lamp, c8Armchair].map (fun i => i.name)).Nodup ∧
    c8Lamp ∈ [c8Lamp, c8Armchair] ∧
    c8Armchair ∈ [c8Lamp, c8Armchair] ∧
    initialSelections [c8Lamp, c8Armchair] c8Lamp.name = none ∧
    (submitEntry (initialSelections [c8Lamp, c8Armchair]) c8Lamp).description
      = c8Lamp.description ∧
    initialSelections [c8Lamp, c8Armchair] c8Armchair.name
      = some { optionName := "Tan Leather", description := "tan leather armchair" } ∧
    (submitEntry (initialSelections [c8Lamp, c8Armchair]) c8Armchair).description
      = "tan leather armchair" := by
  have hnd : ([c8Lamp, c8Armchair].map (fun i => i.name)).Nodup := by decide
  have hlamp := (c8_option_fallback [c8Lamp, c8Armchair] c8Lamp hnd
    (by decide)).2.1 rfl
  have harm := ((c8_option_fallback [c8Lamp, c8Armchair] c8Armchair hnd
    (by decide)).2.2 { optionName := "Tan Leather", description := "tan leather armchair" }
    [] rfl)
  exact ⟨hnd, by decide, by decide, hlamp.1, hlamp.2, harm.1, harm.2⟩

/-- Claim C1 counterexample: with stored design goals "cozy reading nook"
and refinement "make it brighter", the request built by App.tsx
handleRedesign carries "make it brighter" alone, which is not the
concatenation the claim requires. -/
theorem c1_counterexample :
    (redesignRequest
      { roomImage := none, existingObjects := "bed, desk",
        designPrompt := "cozy reading nook", designVibe := "warm" }
      "make it brighter" []).designPrompt = "make it brighter" ∧
    ("make it brighter" : String) ≠ "cozy reading nook. make it brighter" :=
  ⟨rfl, by decide⟩

/-- Claim C1 (corrected): in the three-view flow (App.tsx), a redesign turn
REPLACES the stored design-goals text with the refinement text, while the
selected-items list is passed through unchanged; only the alternate
single-page flow (App in constants.ts) builds the concatenation
"prior goals. refinement" (with ". " separator). -/
theorem c1_redesign_prompt :
    (∀ (formInputs : RoomDesignFormInputs) (newPrompt : String)
       (currentSelectedItems : List SuggestedItem),
      (redesignRequest formInputs newPrompt currentSelectedItems).designPrompt
        = newPrompt ∧
      (redesignRequest formInputs newPrompt currentSelectedItems).selectedItems
        = currentSelectedItems) ∧
    altRedesignFinalPrompt
      { roomImage := none, roomDimensions := "", existingObjects := "bed, desk",
        designPrompt := "cozy reading nook", designVibe := "warm" }
      "make it brighter" [] = "cozy reading nook. make it brighter" :=
  ⟨fun _ _ _ => ⟨rfl, rfl⟩, by decide⟩

/-- The C2 concrete selected item. -/
def c2Armchair : SuggestedItem :=
  { name := "Armchair", description := "tan leather armchair",
    estimatedPriceRange := "$100 - $200", searchQuery := "armchair" }

/-- The C2 concrete stored form inputs. -/
def c2FormInputs : RoomDesignFormInputs :=
  { roomImage := none, existingObjects := "bed, desk",
    designPrompt := "cozy reading nook", designVibe := "warm" }

/-- The C2 concrete session state in SelectingItems, before the transition. -/
def c2State : AppState :=
  { currentView := AppView.itemSelection,
    formInputs := some c2FormInputs,
    initialSuggestedItems := some
      [{ name := "Armchair", description := "base armchair",
         estimatedPriceRange := "$100 - $200", searchQuery := "armchair",
         options := [] }],
    roomDesignOutput := none,
    isLoading := false,
    error := none,
    selectedItemsFromSelection := [] }

/-- Claim C2 counterexample: a failing generation call from SelectingItems
still overwrites the stored selected-items state (it is committed before the
request is awaited), so the session state is NOT exactly as it was before
the transition. -/
theorem c2_counterexample :
    (handleItemSelectionSubmit c2State [c2Armchair]
        (fun _ => Except.error "network failure")).selectedItemsFromSelection
      = [c2Armchair] ∧
    c2State.selectedItemsFromSelection = [] ∧
    [c2Armchair] ≠ ([] : List SuggestedItem) :=
  ⟨rfl, rfl, by decide⟩

/-- Claim C2 (corrected): on a failed generation from SelectingItems the
view, the fetched suggestion list, the stored form inputs and the prior
output are unchanged, but the stored selected-items state has already been
overwritten with the submitted list; on a failed redesign the view, the
suggestion list, the prior image and the stored selection are unchanged,
but the stored form inputs already carry the new prompt. -/
theorem c2_error_reversion :
    ∀ (s : AppState) (formInputs : RoomDesignFormInputs)
      (selectedItems : List SuggestedItem)
      (gen : GenerateRequest → Except String GeneratedImage) (msg : String),
      s.formInputs = some formInputs →
      gen (itemSelectionRequest formInputs selectedItems) = Except.error msg →
      ((handleItemSelectionSubmit s selectedItems gen).currentView = s.currentView ∧
       (handleItemSelectionSubmit s selectedItems gen).initialSuggestedItems
         = s.initialSuggestedItems ∧
       (handleItemSelectionSubmit s selectedItems gen).formInputs = s.formInputs ∧
       (handleItemSelectionSubmit s selectedItems gen).roomDesignOutput
         = s.roomDesignOutput ∧
       (handleItemSelectionSubmit s selectedItems gen).selectedItemsFromSelection
         = selectedItems) ∧
      (∀ (newPrompt : String) (currentSelectedItems : List SuggestedItem)
         (gen2 : GenerateRequest → Except String GeneratedImage) (msg2 : String),
        gen2 (redesignRequest formInputs newPrompt currentSelectedItems)
          = Except.error msg2 →
        (handleRedesign s newPrompt currentSelectedItems gen2).currentView
          = s.currentView ∧
        (handleRedesign s newPrompt currentSelectedItems gen2).initialSuggestedItems
          = s.initialSuggestedItems ∧
        (handleRedesign s newPrompt currentSelectedItems gen2).roomDesignOutput
          = s.roomDesignOutput ∧
        (handleRedesign s newPrompt currentSelectedItems gen2).selectedItemsFromSelection
          = s.selectedItemsFromSelection ∧
        (handleRedesign s newPrompt currentSelectedItems gen2).formInputs
          = some { formInputs with designPrompt := newPrompt }) := by
  intro s formInputs selectedItems gen msg hfi hgen
  constructor
  · simp [handleItemSelectionSubmit, hfi, hgen]
  · intro newPrompt currentSelectedItems gen2 msg2 hgen2
    simp [handleRedesign, hfi, hgen2]

/-- Claim C2 witness: the reversion facts applied at a concrete failing
transition. -/
theorem c2_error_reversion_witness :
    c2State.formInputs = some c2FormInputs ∧
    (handleItemSelectionSubmit c2State [c2Armchair]
        (fun _ => Except.error "network failure")).currentView
      = c2State.currentView ∧
    (handleItemSelectionSubmit c2State [c2Armchair]
        (fun _ => Except.error "network failure")).initialSuggestedItems
      = c2State.initialSuggestedItems ∧
    (handleRedesign c2State "make it brighter" [c2Armchair]
        (fun _ => Except.error "boom")).roomDesignOutput
      = c2State.roomDesignOutput ∧
    (handleRedesign c2State "make it brighter" [c2Armchair]
        (fun _ => Except.error "boom")).formInputs
      = some { c2FormInputs with designPrompt := "make it brighter" } := by
  have h := c2_error_reversion c2State c2FormInputs [c2Armchair]
    (fun _ => Except.error "network failure") "network failure" rfl rfl
  have h2 := h.2 "make it brighter" [c2Armchair]
    (fun _ => Except.error "boom") "boom" rfl
  exact ⟨rfl, h.1.1, h.1.2.1, h2.2.2.1, h2.2.2.2.2⟩

/-- Claim C3 counterexample: "[\x7b\x7d]" is a valid JSON array whose single
element is missing every required field, yet the parser returns it
successfully instead of failing with a ParseError. -/
theorem c3_counterexample :
    detectAndSuggestItemsParse "[\x7b\x7d]" = Except.ok (Json.arr [Json.obj []]) ∧
    hasRequiredSuggestionFields (Json.obj []) = false :=
  ⟨rfl, rfl⟩

/-- Claim C3 (corrected): the suggestion parser checks only that the trimmed
text starts with a bracket and ends with a bracket and that JSON.parse
succeeds. A valid JSON array is returned whole and verbatim (same elements,
same length) with NO per-element required-field validation; text failing the
bracket shape fails with the array-shape error, and bracket-shaped text that
is not valid JSON fails with the parse error; in both failure cases no
partial list is returned. -/
theorem c3_parser_behavior :
    (∀ (text : String) (elems : List Json),
      headIs (jsTrim text) '[' = true →
      lastIs (jsTrim text) ']' = true →
      Json.parse (jsTrim text) = some (Json.arr elems) →
      detectAndSuggestItemsParse text = Except.ok (Json.arr elems)) ∧
    (∀ text : String,
      (headIs (jsTrim text) '[' = true ∧ lastIs (jsTrim text) ']' = true → False) →
      detectAndSuggestItemsParse text
        = Except.error "Gemini API error: Model did not return a valid JSON array.") ∧
    (∀ text : String,
      headIs (jsTrim text) '[' = true →
      lastIs (jsTrim text) ']' = true →
      Json.parse (jsTrim text) = none →
      detectAndSuggestItemsParse text
        = Except.error "Failed to parse model response as JSON. Please try again.") := by
  refine ⟨?_, ?_, ?_⟩
  · intro text elems h1 h2 h3
    simp [detectAndSuggestItemsParse, h1, h2, h3]
  · intro text hnot
    cases hh : headIs (jsTrim text) '[' with
    | false => simp [detectAndSuggestItemsParse, hh]
    | true =>
      cases hl : lastIs (jsTrim text) ']' with
      | false => simp [detectAndSuggestItemsParse, hh, hl]
      | true => exact absurd ⟨hh, hl⟩ hnot
  · intro text h1 h2 h3
    simp [detectAndSuggestItemsParse, h1, h2, h3]

/-- A concrete well-formed suggestion response text, for the C3 witness. -/
def c3SampleText : String :=
  "[\x7b\"name\":\"Armchair\",\"description\":\"d\",\"estimatedPriceRange\":\"$100\",\"searchQuery\":\"q\",\"options\":[]\x7d]"

/-- The Json value of the single element of `c3SampleText`. -/
def c3SampleElem : Json :=
  Json.obj [("name", Json.str "Armchair"), ("description", Json.str "d"),
    ("estimatedPriceRange", Json.str "$100"), ("searchQuery", Json.str "q"),
    ("options", Json.arr [])]

/-- Claim C3 witness: the parser behavior applied at a concrete well-formed
response (all required fields present, one element in, one element out,
verbatim). -/
theorem c3_parser_behavior_witness :
    headIs (jsTrim c3SampleText) '[' = true ∧
    lastIs (jsTrim c3SampleText) ']' = true ∧
    Json.parse (jsTrim c3SampleText) = some (Json.arr [c3SampleElem]) ∧
    hasRequiredSuggestionFields c3SampleElem = true ∧
    detectAndSuggestItemsParse c3SampleText = Except.ok (Json.arr [c3SampleElem]) ∧
    detectAndSuggestItemsParse " not json "
      = Except.error "Gemini API error: Model did not return a valid JSON array." ∧
    detectAndSuggestItemsParse "[,]"
      = Except.error "Failed to parse model response as JSON. Please try again." :=
  ⟨rfl, rfl, rfl, rfl,
    c3_parser_behavior.1 c3SampleText [c3SampleElem] rfl rfl rfl,
    c3_parser_behavior.2.1 " not json " (fun h => absurd h.1 (by decide)),
    c3_parser_behavior.2.2 "[,]" rfl rfl rfl⟩

/-- Claim C4 counterexample: a response whose first part is text and whose
second part is an inline image contains an inline-image part, yet the
geminiService extractor fails with the no-image error instead of returning
the first inline-image part. -/
theorem c4_counterexample :
    [RespPart.text "description",
      RespPart.inlineImage "image/png" "AAA"].any isInlineImagePart = true ∧
    generateRoomDesignExtract
      [[RespPart.text "description", RespPart.inlineImage "image/png" "AAA"]]
      = Except.error "Gemini API error: No image data found in the model response." :=
  ⟨rfl, rfl⟩

/-- Claim C4 (corrected): the geminiService extractor inspects only the
FIRST part of the first candidate: zero inline-image parts do fail with the
no-image error, and when the first part is an inline image it is returned
(first-wins); but a response whose first part is not an image fails even if
images follow. The alternate part_003 service instead collects ALL
inline-image parts in order, fails only on zero, and the display consumes
the first collected image. -/
theorem c4_first_image :
    (∀ (candidates : List (List RespPart)) (parts : List RespPart),
      candidates.head? = some parts →
      parts.all (fun p => !isInlineImagePart p) = true →
      generateRoomDesignExtract candidates
        = Except.error "Gemini API error: No image data found in the model response.") ∧
    (∀ (candidates : List (List RespPart)) (mimeType data : String)
       (rest : List RespPart),
      candidates.head? = some (RespPart.inlineImage mimeType data :: rest) →
      generateRoomDesignExtract candidates
        = Except.ok { imageBytes := data, mimeType := mimeType }) ∧
    (∀ (now : Nat) (designPrompt : String) (parts : List RespPart),
      collectInlineImages now designPrompt parts = [] →
      generateImagesStep now designPrompt parts
        = Except.error "Failed to generate any room design images.") ∧
    (∀ (now : Nat) (designPrompt : String) (parts : List RespPart)
       (img : PanoramaImage) (imgs : List PanoramaImage),
      collectInlineImages now designPrompt parts = img :: imgs →
      generateImagesStep now designPrompt parts = Except.ok (img :: imgs) ∧
      panoramaImageOf (img :: imgs) = some img) := by
  refine ⟨?_, ?_, ?_, ?_⟩
  · intro candidates parts hc hall
    cases parts with
    | nil => simp [generateRoomDesignExtract, firstPartInlineData, hc]
    | cons p ps =>
      cases p with
      | text s => simp [generateRoomDesignExtract, firstPartInlineData, hc]
      | inlineImage mt d => simp [isInlineImagePart] at hall
  · intro candidates mimeType data rest hc
    simp [generateRoomDesignExtract, firstPartInlineData, hc]
  · intro now designPrompt parts hcol
    simp [generateImagesStep, hcol]
  · intro now designPrompt parts img imgs hcol
    exact ⟨by simp [generateImagesStep, hcol], rfl⟩

/-- Claim C4 witness: the extraction rules applied at concrete responses. -/
theorem c4_first_image_witness :
    generateRoomDesignExtract [[RespPart.text "only text"]]
      = Except.error "Gemini API error: No image data found in the model response." ∧
    generateRoomDesignExtract
      [[RespPart.inlineImage "image/png" "FIRST",
        RespPart.inlineImage "image/jpeg" "SECOND"]]
      = Except.ok { imageBytes := "FIRST", mimeType := "image/png" } ∧
    generateImagesStep 0 "p" [RespPart.text "t"]
      = Except.error "Failed to generate any room design images." ∧
    generateImagesStep 0 "p"
      [RespPart.inlineImage "image/png" "FIRST",
        RespPart.inlineImage "image/jpeg" "SECOND"]
      = Except.ok (collectInlineImages 0 "p"
        [RespPart.inlineImage "image/png" "FIRST",
          RespPart.inlineImage "image/jpeg" "SECOND"]) ∧
    panoramaImageOf (collectInlineImages 0 "p"
        [RespPart.inlineImage "image/png" "FIRST",
          RespPart.inlineImage "image/jpeg" "SECOND"])
      = some { id := "panorama-0", base64Data := "FIRST",
               alt := "AI-generated panoramic room design for " ++ singleQuote ++
                 "p" ++ singleQuote } := by
  refine ⟨?_, ?_, ?_, ?_, ?_⟩
  · exact c4_first_image.1 [[RespPart.text "only text"]] [RespPart.text "only text"]
      rfl rfl
  · exact c4_first_image.2.1 [[RespPart.inlineImage "image/png" "FIRST",
      RespPart.inlineImage "image/jpeg" "SECOND"]] "image/png" "FIRST"
      [RespPart.inlineImage "image/jpeg" "SECOND"] rfl
  · exact c4_first_image.2.2.1 0 "p" [RespPart.text "t"] rfl
  · exact (c4_first_image.2.2.2 0 "p"
      [RespPart.inlineImage "image/png" "FIRST",
        RespPart.inlineImage "image/jpeg" "SECOND"] _ _ rfl).1
  · rfl

/-- Claim C7 counterexample: in the alternate part_003 service the
credential is the module-load-time constant `API_KEY` (empty when the
environment variable was absent at load), the call-time environment is
ignored (here a rotated key is present at call time), and no configuration
error is raised: the pipeline proceeds and succeeds. -/
theorem c7_counterexample :
    getGeminiClient (constantsApiKey none) = { apiKey := "" } ∧
    part3GenerateImagesRun none (some "rotated-key") 0 "p"
        [RespPart.inlineImage "image/png" "AAA"]
      = Except.ok [{ id := "panorama-0", base64Data := "AAA",
                     alt := "AI-generated panoramic room design for " ++
                       singleQuote ++ "p" ++ singleQuote }] :=
  ⟨rfl, rfl⟩

/-- Claim C7 (corrected): the geminiService functions read the credential
from the environment at each call and fail immediately with the
configuration error when it is absent or empty, before any processing of a
network response; but the alternate part_003 service bakes the credential in
at module load (empty string when absent), ignores the call-time
environment, and has no missing-credential failure at all. -/
theorem c7_credential :
    (∀ responseText : String,
      detectAndSuggestItemsRun none responseText
        = Except.error "API_KEY environment variable is not set. Please provide a valid API key.") ∧
    (∀ responseText : String,
      detectAndSuggestItemsRun (some "") responseText
        = Except.error "API_KEY environment variable is not set. Please provide a valid API key.") ∧
    (∀ (key : String) (responseText : String), key ≠ "" →
      detectAndSuggestItemsRun (some key) responseText
        = detectAndSuggestItemsParse responseText) ∧
    (∀ candidates : List (List RespPart),
      generateRoomDesignRun none candidates
        = Except.error "API_KEY environment variable is not set. Please provide a valid API key.") ∧
    (∀ (envAtLoad envAtCall envAtCall2 : Option String) (now : Nat)
       (designPrompt : String) (parts : List RespPart),
      part3GenerateImagesRun envAtLoad envAtCall now designPrompt parts
        = part3GenerateImagesRun envAtLoad envAtCall2 now designPrompt parts ∧
      part3GenerateImagesRun envAtLoad envAtCall now designPrompt parts
        = generateImagesStep now designPrompt parts) := by
  refine ⟨?_, ?_, ?_, ?_, ?_⟩
  · intro responseText
    simp [detectAndSuggestItemsRun, initializeGenAI]
  · intro responseText
    simp [detectAndSuggestItemsRun, initializeGenAI]
  · intro key responseText hk
    simp [detectAndSuggestItemsRun, initializeGenAI, hk]
  · intro candidates
    simp [generateRoomDesignRun, initializeGenAI]
  · intro envAtLoad envAtCall envAtCall2 now designPrompt parts
    exact ⟨rfl, rfl⟩

/-- Claim C7 witness: the credential behaviors applied at concrete calls. -/
theorem c7_credential_witness :
    detectAndSuggestItemsRun none "[]"
      = Except.error "API_KEY environment variable is not set. Please provide a valid API key." ∧
    detectAndSuggestItemsRun (some "") "[]"
      = Except.error "API_KEY environment variable is not set. Please provide a valid API key." ∧
    detectAndSuggestItemsRun (some "fresh-key") "[]"
      = detectAndSuggestItemsParse "[]" ∧
    generateRoomDesignRun none [[RespPart.inlineImage "image/png" "AAA"]]
      = Except.error "API_KEY environment variable is not set. Please provide a valid API key." ∧
    part3GenerateImagesRun none (some "fresh-key") 0 "p" [RespPart.text "t"]
      = generateImagesStep 0 "p" [RespPart.text "t"] :=
  ⟨c7_credential.1 "[]", c7_credential.2.1 "[]",
    c7_credential.2.2.1 "fresh-key" "[]" (by decide),
    c7_credential.2.2.2.1 [[RespPart.inlineImage "image/png" "AAA"]],
    (c7_credential.2.2.2.2 none (some "fresh-key") none 0 "p"
      [RespPart.text "t"]).2⟩
